import Mathlib

/-!
Verification of the Feedback-Analysis ETL pipeline (`main.py`).

Shallow embedding of the single-file pipeline in `main.py`:
fetch a semicolon-delimited CSV export from KoboToolbox, rename and
project the columns to a fixed destination list, coerce typed columns
with pandas' coerce-to-null policy, drop and recreate the destination
table, bulk insert, and verify.

Pandas dataframes are modelled as a column-name list plus rows of
(column, value) pairs; absent values (NaN / NaT / pandas NA) are a
single `Value.vNull`.  External library behaviour that the script
leans on (`pd.read_csv`, `pd.to_datetime`, `pd.to_numeric`,
`requests`, SQLAlchemy) is embedded on the fragment the script
exercises, faithfully to the documented semantics the script relies
on: `errors=coerce` never raises, `df[cols]` raises `KeyError` when a
requested column is missing, `raise_for_status` raises exactly on
4xx/5xx, and a header-only CSV parses to an empty dataframe.
-/

set_option maxRecDepth 100000

namespace FeedbackAnalysis

/-- A parsed datetime, as produced by `pd.to_datetime`:
calendar date, time of day, and an optional UTC offset in minutes
(`some 0` for a trailing `Z`, `none` for a naive timestamp). -/
structure Timestamp where
  year : Nat
  month : Nat
  day : Nat
  hour : Nat
  minute : Nat
  second : Nat
  tzOffsetMinutes : Option Int
deriving DecidableEq, Repr

/-- A calendar date, as produced by `.dt.date` truncation. -/
structure CalDate where
  year : Nat
  month : Nat
  day : Nat
deriving DecidableEq, Repr

/-- A dataframe cell.  `vNull` is pandas' absent value
(NaN / NaT / NA); CSV cells start as `vStr`, coercions produce
`vInt`, `vTimestamp`, `vDate`. -/
inductive Value where
  | vNull : Value
  | vStr : String → Value
  | vInt : Int → Value
  | vTimestamp : Timestamp → Value
  | vDate : CalDate → Value
deriving DecidableEq, Repr

/-- Split a character list at every occurrence of `sep`; the
single-separator instances of `String.splitOn` the script relies on
(`sep=';'` in `pd.read_csv`, and the ISO-8601 field separators). -/
def splitOnChar (sep : Char) : List Char → List (List Char)
  | [] => [[]]
  | c :: rest =>
    if c = sep then [] :: splitOnChar sep rest
    else
      match splitOnChar sep rest with
      | [] => [[c]]
      | g :: gs => (c :: g) :: gs

/-- Rebuild a string from its characters. -/
def strOf (cs : List Char) : String := ⟨cs⟩

/-- Strip leading and trailing whitespace. -/
def trimChars (cs : List Char) : List Char :=
  ((cs.dropWhile Char.isWhitespace).reverse.dropWhile Char.isWhitespace).reverse

/-- A non-empty all-digit character list as a number. -/
def digitsToNat? (cs : List Char) : Option Nat :=
  if (!cs.isEmpty) && cs.all Char.isDigit then
    some (cs.foldl (fun a c => a * 10 + (c.toNat - 48)) 0)
  else none

/-- Integer parsing as `pd.to_numeric` performs it on the integer-valued
strings this dataset's numeric columns carry: optional sign, then
digits, surrounding whitespace tolerated; anything else fails. -/
def parseNumeric (s : String) : Option Int :=
  match trimChars s.data with
  | [] => none
  | c :: rest =>
    if c = '-' then (digitsToNat? rest).map (fun n => -(n : Int))
    else if c = '+' then (digitsToNat? rest).map (fun n => (n : Int))
    else (digitsToNat? (c :: rest)).map (fun n => (n : Int))

/-- Date component of an ISO-8601 string: `YYYY-MM-DD`. -/
def parseDateChars (cs : List Char) : Option (Nat × Nat × Nat) :=
  match splitOnChar '-' cs with
  | [y, m, d] =>
    match digitsToNat? y, digitsToNat? m, digitsToNat? d with
    | some yn, some mn, some dn =>
      if 1 ≤ mn ∧ mn ≤ 12 ∧ 1 ≤ dn ∧ dn ≤ 31 then some (yn, mn, dn) else none
    | _, _, _ => none
  | _ => none

/-- Time component of an ISO-8601 string: `HH:MM` or `HH:MM:SS`. -/
def parseTimeChars (cs : List Char) : Option (Nat × Nat × Nat) :=
  match splitOnChar ':' cs with
  | [h, m] =>
    match digitsToNat? h, digitsToNat? m with
    | some hn, some mn => if hn ≤ 23 ∧ mn ≤ 59 then some (hn, mn, 0) else none
    | _, _ => none
  | [h, m, sec] =>
    match digitsToNat? h, digitsToNat? m, digitsToNat? sec with
    | some hn, some mn, some sn =>
      if hn ≤ 23 ∧ mn ≤ 59 ∧ sn ≤ 59 then some (hn, mn, sn) else none
    | _, _, _ => none
  | _ => none

/-- Datetime parsing as `pd.to_datetime` performs it on the ISO-8601
forms this export carries: `YYYY-MM-DD`, optionally followed by a
`T`- or space-separated time, optionally suffixed `Z` (UTC).
Unparsable input fails (the caller's `errors=coerce` turns that into
an absent value). -/
def parseTimestampStr (s0 : String) : Option Timestamp :=
  let t := trimChars s0.data
  let hasZ := t.getLast? == some 'Z'
  let core := if hasZ then t.dropLast else t
  let tz : Option Int := if hasZ then some 0 else none
  let parts :=
    if (splitOnChar 'T' core).length = 2 then splitOnChar 'T' core else splitOnChar ' ' core
  match parts with
  | [d] =>
    match parseDateChars d with
    | some (y, m, dd) => some ⟨y, m, dd, 0, 0, 0, tz⟩
    | none => none
  | [d, ti] =>
    match parseDateChars d, parseTimeChars ti with
    | some (y, m, dd), some (hh, mm, ss) => some ⟨y, m, dd, hh, mm, ss, tz⟩
    | _, _ => none
  | _ => none

/-- Model of `pd.to_datetime(col, errors=coerce)` on one cell: parse-or-null,
never raises. -/
def toDatetime : Value → Value
  | .vStr s =>
    match parseTimestampStr s with
    | some t => .vTimestamp t
    | none => .vNull
  | .vTimestamp t => .vTimestamp t
  | _ => .vNull

/-- Model of `pd.to_datetime(col, errors=coerce).dt.date` on one cell:
parse-or-null, then truncate to the calendar date. -/
def toDatetimeDate (v : Value) : Value :=
  match toDatetime v with
  | .vTimestamp t => .vDate ⟨t.year, t.month, t.day⟩
  | _ => .vNull

/-- Model of `pd.to_numeric(col, errors=coerce)` on one cell: parse-or-null,
never raises.  (`astype(Int64)` on the result keeps the integer and
the nulls, so `submission_id` uses this same cell function.) -/
def toNumeric : Value → Value
  | .vStr s =>
    match parseNumeric s with
    | some n => .vInt n
    | none => .vNull
  | .vInt n => .vInt n
  | _ => .vNull

/-- One dataframe row: (column name, cell) pairs in column order. -/
abbrev Row := List (String × Value)

/-- A pandas dataframe: column names plus rows. -/
structure DataFrame where
  cols : List String
  rows : List Row
deriving DecidableEq, Repr

/-- Reading one cell of a row; a key the row lacks reads as NaN,
as a CSV-parsed dataframe fills missing trailing fields with NaN. -/
def getCell (r : Row) (c : String) : Value :=
  (List.lookup c r).getD .vNull

/-- The static source→destination column mapping of
`clean_and_insert_data` (`df.rename(columns=...)`, main.py:151-172). -/
def renameMapping : List (String × String) :=
  [("start", "start_time"),
   ("end", "end_time"),
   ("Date of reporting", "date_of_reporting"),
   ("Store Location", "store_location"),
   ("Gender", "gender"),
   ("Age", "age"),
   ("How satisfy are you with the product pricing", "product_pricing_satisfaction"),
   ("How satified are you with the customers services", "customer_service_satisfaction"),
   ("What is your overall satisfaction", "overall_satisfaction"),
   ("What are your recommendations", "recommendations"),
   ("_id", "submission_id"),
   ("_uuid", "uuid"),
   ("_submission_time", "submission_time"),
   ("_validation_status", "validation_status"),
   ("_notes", "notes"),
   ("_status", "status"),
   ("_submitted_by", "submitted_by"),
   ("__version__", "version"),
   ("_tags", "tags"),
   ("_index", "index_value")]

/-- Effect of `df.rename` on one column name: mapped names change, others stay. -/
def renameCol (c : String) : String :=
  (List.lookup c renameMapping).getD c

/-- Effect of `df.rename` on one row. -/
def renameRow (r : Row) : Row :=
  r.map (fun p => (renameCol p.1, p.2))

/-- Effect of `df.rename(columns=...)` on the whole dataframe. -/
def renameDF (df : DataFrame) : DataFrame :=
  ⟨df.cols.map renameCol, df.rows.map renameRow⟩

/-- The fixed 20-entry destination column list `columns_to_insert`
(main.py:177-184), in the fixed order. -/
def columns_to_insert : List String :=
  ["start_time", "end_time", "date_of_reporting", "store_location",
   "gender", "age", "product_pricing_satisfaction",
   "customer_service_satisfaction", "overall_satisfaction",
   "recommendations", "submission_id", "uuid", "submission_time",
   "validation_status", "notes", "status", "submitted_by",
   "version", "tags", "index_value"]

/-- Model of `df[cs]` column projection: keeps exactly the requested columns in
the requested order; raises `KeyError` (here: `none`) when any
requested column is missing from the dataframe. -/
def selectCols (cs : List String) (df : DataFrame) : Option DataFrame :=
  if cs.all (fun c => df.cols.contains c) then
    some ⟨cs, df.rows.map (fun r => cs.map (fun c => (c, getCell r c)))⟩
  else none

/-- Effect of `df[c] = f(df[c])` on one row: apply `f` to the cell at column `c`. -/
def rowApply (c : String) (f : Value → Value) (r : Row) : Row :=
  r.map (fun p => if p.1 = c then (p.1, f p.2) else p)

/-- Effect of `df[c] = f(df[c])` on the whole dataframe. -/
def applyCol (c : String) (f : Value → Value) (df : DataFrame) : DataFrame :=
  ⟨df.cols, df.rows.map (rowApply c f)⟩

/-- The cleaning segment of `clean_and_insert_data` (main.py:151-200):
rename, project to `columns_to_insert` (`KeyError`, i.e. `none`, if a
destination column is missing), then the ten column coercions in
source order.  The surrounding `except` re-raises, so `none`
propagates out of the stage. -/
def cleanData (df : DataFrame) : Option DataFrame :=
  (selectCols columns_to_insert (renameDF df)).map (fun d0 =>
    let d1 := applyCol "start_time" toDatetime d0
    let d2 := applyCol "end_time" toDatetime d1
    let d3 := applyCol "date_of_reporting" toDatetimeDate d2
    let d4 := applyCol "submission_time" toDatetime d3
    let d5 := applyCol "age" toNumeric d4
    let d6 := applyCol "product_pricing_satisfaction" toNumeric d5
    let d7 := applyCol "customer_service_satisfaction" toNumeric d6
    let d8 := applyCol "overall_satisfaction" toNumeric d7
    let d9 := applyCol "submission_id" toNumeric d8
    applyCol "index_value" toNumeric d9)

/-- The per-column coercion the cleaning stage amounts to, written as
the same sequence of guarded updates the source applies
(main.py:189-200). -/
def coerceFor (c : String) (v : Value) : Value :=
  let v := if c = "start_time" then toDatetime v else v
  let v := if c = "end_time" then toDatetime v else v
  let v := if c = "date_of_reporting" then toDatetimeDate v else v
  let v := if c = "submission_time" then toDatetime v else v
  let v := if c = "age" then toNumeric v else v
  let v := if c = "product_pricing_satisfaction" then toNumeric v else v
  let v := if c = "customer_service_satisfaction" then toNumeric v else v
  let v := if c = "overall_satisfaction" then toNumeric v else v
  let v := if c = "submission_id" then toNumeric v else v
  if c = "index_value" then toNumeric v else v

/-- What the cleaning stage does to one source row when the projection
succeeds: exactly the destination columns, in order, each coerced. -/
def cleanRow (r : Row) : Row :=
  columns_to_insert.map (fun c => (c, coerceFor c (getCell (renameRow r) c)))

/-- One CSV cell: `pd.read_csv` reads an empty field as NaN. -/
def mkCell (s : String) : Value :=
  if s = "" then Value.vNull else Value.vStr s

/-- One CSV data line against the header: fields paired with column
names; a short line is padded with NaN. -/
def mkRow (cols : List String) (fields : List String) : Row :=
  cols.zip (fields.map mkCell ++ List.replicate (cols.length - fields.length) Value.vNull)

/-- Model of `pd.read_csv(io.StringIO(text), sep=';', on_bad_lines='skip')`:
first non-blank line is the header; a data line with more fields than
the header is skipped (`on_bad_lines='skip'`), a short one is padded
with NaN; a body with no lines at all raises `EmptyDataError` (here:
`none`).  A header-only body parses to a dataframe with zero rows. -/
def read_csv (body : String) : Option DataFrame :=
  let lines := ((splitOnChar '\n' body.data).map strOf).filter (fun l => l ≠ "")
  match lines with
  | [] => none
  | header :: rest =>
    let cols := (splitOnChar ';' header.data).map strOf
    let rows := rest.filterMap (fun l =>
      let fs := (splitOnChar ';' l.data).map strOf
      if cols.length < fs.length then none else some (mkRow cols fs))
    some ⟨cols, rows⟩

/-- The observable outcome of the HTTP GET against the Kobo endpoint:
whether the request completed at all, the status code, and the
response text. -/
structure HttpResult where
  reachable : Bool
  status : Nat
  body : String
deriving DecidableEq, Repr

/-- Embedding of `fetch_kobo_data` (main.py:32-61): GET, `raise_for_status`
(raises exactly on status 400-599), then `pd.read_csv`.  The
`except` block catches every failure and returns `None`; a dataframe
with zero rows is returned as a success. -/
def fetch_kobo_data (r : HttpResult) : Option DataFrame :=
  if !r.reachable then none
  else if 400 ≤ r.status ∧ r.status < 600 then none
  else read_csv r.body

/-- Embedding of `create_database_connection` (main.py:63-95): build the engine and
probe it with `SELECT 1`; every failure is caught and `None` is
returned.  The connection's only observable content here is that it
exists. -/
def create_database_connection (canConnect : Bool) : Option Unit :=
  if canConnect then some () else none

/-- Column types of the destination DDL (main.py:111-136). -/
inductive SqlType where
  | serialPK : SqlType
  | timestampTZ : SqlType
  | timestampPlain : SqlType
  | dateT : SqlType
  | varcharT : Nat → SqlType
  | integerT : SqlType
  | bigintT : SqlType
  | textT : SqlType
  | timestampDefaultNow : SqlType
deriving DecidableEq, Repr

/-- The fixed column layout of `feedback_ghana.customer_feedback`,
transcribed from the `CREATE TABLE` statement (main.py:111-136). -/
def customer_feedback_schema : List (String × SqlType) :=
  [("id", SqlType.serialPK),
   ("start_time", SqlType.timestampTZ),
   ("end_time", SqlType.timestampTZ),
   ("date_of_reporting", SqlType.dateT),
   ("store_location", SqlType.varcharT 255),
   ("gender", SqlType.varcharT 50),
   ("age", SqlType.integerT),
   ("product_pricing_satisfaction", SqlType.integerT),
   ("customer_service_satisfaction", SqlType.integerT),
   ("overall_satisfaction", SqlType.integerT),
   ("recommendations", SqlType.textT),
   ("submission_id", SqlType.bigintT),
   ("uuid", SqlType.varcharT 255),
   ("submission_time", SqlType.timestampPlain),
   ("validation_status", SqlType.varcharT 100),
   ("notes", SqlType.textT),
   ("status", SqlType.varcharT 100),
   ("submitted_by", SqlType.varcharT 255),
   ("version", SqlType.varcharT 100),
   ("tags", SqlType.textT),
   ("index_value", SqlType.integerT),
   ("created_at", SqlType.timestampDefaultNow)]

/-- The destination table: its DDL layout and its stored rows. -/
structure Table where
  schema : List (String × SqlType)
  rows : List Row
deriving DecidableEq, Repr

/-- The destination database: whether the `feedback_ghana` schema
exists and the `customer_feedback` table (with its contents), if it
exists. -/
structure DBState where
  schemaExists : Bool
  table : Option Table
deriving DecidableEq, Repr

/-- Row count of the destination table (the verification query). -/
def rowCount (s : DBState) : Nat :=
  match s.table with
  | some t => t.rows.length
  | none => 0

/-- The fatal errors the pipeline can raise past `main`'s entry:
a DDL failure re-raised by `create_schema_and_table`, a projection
`KeyError` or an insert failure re-raised by `clean_and_insert_data`. -/
inductive PipelineError where
  | provisionError : PipelineError
  | keyError : PipelineError
  | loadError : PipelineError
deriving DecidableEq, Repr

/-- Embedding of `create_schema_and_table` (main.py:97-143): `CREATE SCHEMA IF NOT
EXISTS`, `DROP TABLE IF EXISTS ... CASCADE`, `CREATE TABLE` — any
prior table and all its rows are unconditionally discarded.  A DDL
failure (`ddlOk = false`, e.g. lost connectivity or missing
privileges) is caught, reported and re-raised. -/
def create_schema_and_table (ddlOk : Bool) (_prior : DBState) : Except PipelineError DBState :=
  if ddlOk then
    Except.ok { schemaExists := true, table := some ⟨customer_feedback_schema, []⟩ }
  else Except.error PipelineError.provisionError

/-- Embedding of `clean_and_insert_data` (main.py:145-223): clean (rename, project,
coerce), then `to_sql(..., if_exists='append', method='multi')`
appending every cleaned row.  A projection `KeyError` or an insert
failure (`insertOk = false`) is caught, reported and re-raised. -/
def clean_and_insert_data (insertOk : Bool) (df : DataFrame) (s : DBState) :
    Except PipelineError DBState :=
  match cleanData df with
  | none => Except.error PipelineError.keyError
  | some out =>
    if insertOk then
      match s.table with
      | some t => Except.ok { s with table := some ⟨t.schema, t.rows ++ out.rows⟩ }
      | none => Except.ok { s with table := some ⟨customer_feedback_schema, out.rows⟩ }
    else Except.error PipelineError.loadError

/-- The pipeline stages of §4.6's state machine, in the order `main`
enters them. -/
inductive Stage where
  | fetching : Stage
  | connecting : Stage
  | provisioning : Stage
  | loading : Stage
  | verifying : Stage
  | done : Stage
deriving DecidableEq, Repr

/-- How a run of `main` ends: an early `return` (normal termination
with a message), full completion, or a propagated exception; each
carries the final destination state and the stages entered. -/
inductive RunResult where
  | abortedNormally : DBState → List Stage → RunResult
  | completed : DBState → List Stage → RunResult
  | raised : PipelineError → DBState → List Stage → RunResult
deriving DecidableEq, Repr

/-- The environment a run executes against: the remote endpoint's
response and the success of the destination-side operations. -/
structure Env where
  http : HttpResult
  connectOk : Bool
  ddlOk : Bool
  insertOk : Bool
deriving DecidableEq, Repr

/-- Embedding of `main` (main.py:225-268): fetch; return early when the result is
`None` or empty; connect, returning early on `None`; provision; clean
and insert; verify (two read-only queries).  Nothing after the
connection step is guarded, so a raised error propagates and ends the
process before the verification queries run. -/
def main (env : Env) (s0 : DBState) : RunResult :=
  match fetch_kobo_data env.http with
  | none => RunResult.abortedNormally s0 [Stage.fetching]
  | some df =>
    if df.rows.isEmpty then RunResult.abortedNormally s0 [Stage.fetching]
    else
      match create_database_connection env.connectOk with
      | none => RunResult.abortedNormally s0 [Stage.fetching, Stage.connecting]
      | some _ =>
        match create_schema_and_table env.ddlOk s0 with
        | Except.error e =>
          RunResult.raised e s0 [Stage.fetching, Stage.connecting, Stage.provisioning]
        | Except.ok s1 =>
          match clean_and_insert_data env.insertOk df s1 with
          | Except.error e =>
            RunResult.raised e s1
              [Stage.fetching, Stage.connecting, Stage.provisioning, Stage.loading]
          | Except.ok s2 =>
            RunResult.completed s2
              [Stage.fetching, Stage.connecting, Stage.provisioning, Stage.loading,
               Stage.verifying, Stage.done]

/-- The destination columns coerced with `pd.to_datetime` (main.py:189-192). -/
def timestampColumns : List String :=
  ["start_time", "end_time", "submission_time"]

/-- The destination columns coerced with `pd.to_numeric` (main.py:195-200). -/
def integerColumns : List String :=
  ["age", "product_pricing_satisfaction", "customer_service_satisfaction",
   "overall_satisfaction", "submission_id", "index_value"]

/-- The destination columns no coercion touches (text pass-through). -/
def textColumns : List String :=
  ["store_location", "gender", "recommendations", "uuid", "validation_status",
   "notes", "status", "submitted_by", "version", "tags"]

/-- A cell holds a parsed datetime or is absent. -/
def isTimestampOrNull : Value → Bool
  | Value.vTimestamp _ => true
  | Value.vNull => true
  | _ => false

/-- A cell holds a calendar date or is absent. -/
def isDateOrNull : Value → Bool
  | Value.vDate _ => true
  | Value.vNull => true
  | _ => false

/-- A cell holds an integer or is absent. -/
def isIntOrNull : Value → Bool
  | Value.vInt _ => true
  | Value.vNull => true
  | _ => false

/-- A DDL column type that stores free text / strings. -/
def isStringType : SqlType → Bool
  | SqlType.varcharT _ => true
  | SqlType.textT => true
  | _ => false

/-- The source column names, in export order (the domain of the rename
mapping). -/
def sourceColumns : List String := renameMapping.map Prod.fst

/-- A RawRecordSet holding only an `Age` column: a destination column
(indeed nineteen of them) is entirely missing from the source. -/
def dfOnlyAge : DataFrame := ⟨["Age"], [[("Age", Value.vStr "34")]]⟩

/-- The spec's example source row, as its own RawRecordSet: only the
four supplied columns exist. -/
def exampleRowDF : DataFrame :=
  ⟨["Age", "Gender", "_id", "start"],
   [[("Age", Value.vStr "34"), ("Gender", Value.vStr "Female"),
     ("_id", Value.vStr "991"), ("start", Value.vStr "2024-01-03T10:00:00Z")]]⟩

/-- The spec's example source row inside a full export: all twenty
source columns present, the unsupplied ones blank (NaN). -/
def exampleFullRow : Row :=
  [("start", Value.vStr "2024-01-03T10:00:00Z"), ("end", Value.vNull),
   ("Date of reporting", Value.vNull), ("Store Location", Value.vNull),
   ("Gender", Value.vStr "Female"), ("Age", Value.vStr "34"),
   ("How satisfy are you with the product pricing", Value.vNull),
   ("How satified are you with the customers services", Value.vNull),
   ("What is your overall satisfaction", Value.vNull),
   ("What are your recommendations", Value.vNull),
   ("_id", Value.vStr "991"), ("_uuid", Value.vNull),
   ("_submission_time", Value.vNull), ("_validation_status", Value.vNull),
   ("_notes", Value.vNull), ("_status", Value.vNull),
   ("_submitted_by", Value.vNull), ("__version__", Value.vNull),
   ("_tags", Value.vNull), ("_index", Value.vNull)]

/-- The example row delivered with the full export's column set. -/
def exampleFullDF : DataFrame := ⟨sourceColumns, [exampleFullRow]⟩

/-- The mapped output of the full-export example. -/
def exampleFullOut : DataFrame := (cleanData exampleFullDF).getD ⟨[], []⟩

/-- The full export with a malformed age value. -/
def exampleThirtyRow : Row :=
  [("start", Value.vStr "2024-01-03T10:00:00Z"), ("end", Value.vNull),
   ("Date of reporting", Value.vNull), ("Store Location", Value.vNull),
   ("Gender", Value.vStr "Female"), ("Age", Value.vStr "thirty"),
   ("How satisfy are you with the product pricing", Value.vNull),
   ("How satified are you with the customers services", Value.vNull),
   ("What is your overall satisfaction", Value.vNull),
   ("What are your recommendations", Value.vNull),
   ("_id", Value.vStr "991"), ("_uuid", Value.vNull),
   ("_submission_time", Value.vNull), ("_validation_status", Value.vNull),
   ("_notes", Value.vNull), ("_status", Value.vNull),
   ("_submitted_by", Value.vNull), ("__version__", Value.vNull),
   ("_tags", Value.vNull), ("_index", Value.vNull)]

/-- The malformed-age export. -/
def exampleThirtyDF : DataFrame := ⟨sourceColumns, [exampleThirtyRow]⟩

/-- The mapped output of the malformed-age export. -/
def exampleThirtyOut : DataFrame := (cleanData exampleThirtyDF).getD ⟨[], []⟩

/-- A 200 response whose CSV body is a header line and nothing else:
it parses to zero rows. -/
def headerOnlyResponse : HttpResult := ⟨true, 200, "col1;col2"⟩

/-- A request that never reached the server. -/
def unreachableResponse : HttpResult := ⟨false, 200, ""⟩

/-- A complete one-row export body, semicolon-delimited, with every
source column. -/
def pipelineCsv : String :=
  "start;end;Date of reporting;Store Location;Gender;Age;How satisfy are you with the product pricing;How satified are you with the customers services;What is your overall satisfaction;What are your recommendations;_id;_uuid;_submission_time;_validation_status;_notes;_status;_submitted_by;__version__;_tags;_index\n2024-01-03T10:00:00Z;2024-01-03T10:05:00Z;2024-01-03;Accra;Female;34;4;5;4;great;991;uuid-1;2024-01-03T10:06:00;ok;n;ok;admin;v1;t;1"

/-- An environment where every stage can succeed. -/
def successEnv : Env := ⟨⟨true, 200, pipelineCsv⟩, true, true, true⟩

/-- What the fetcher returns in `successEnv`. -/
def fetchedDF : DataFrame := (fetch_kobo_data successEnv.http).getD ⟨[], []⟩

/-- An environment whose remote endpoint is unreachable. -/
def unreachableEnv : Env := ⟨unreachableResponse, true, true, true⟩

/-- An environment where the fetch succeeds but the DDL fails. -/
def noDdlEnv : Env := ⟨⟨true, 200, "Age\n34"⟩, true, false, true⟩

/-- An empty destination database. -/
def emptyDB : DBState := ⟨false, none⟩

/-! ## Helper lemmas about the cleaning stage -/

theorem rowApply_mapped (c : String) (f : Value → Value) (cs : List String)
    (g : String → Value) :
    rowApply c f (cs.map fun x => (x, g x)) =
      cs.map fun x => (x, if x = c then f (g x) else g x) := by
  simp only [rowApply, List.map_map]
  refine List.map_congr_left (fun x _ => ?_)
  by_cases h : x = c <;> simp [h]

theorem cleanChain_row (g : String → Value) :
    rowApply "index_value" toNumeric (rowApply "submission_id" toNumeric
      (rowApply "overall_satisfaction" toNumeric
      (rowApply "customer_service_satisfaction" toNumeric
      (rowApply "product_pricing_satisfaction" toNumeric
      (rowApply "age" toNumeric
      (rowApply "submission_time" toDatetime
      (rowApply "date_of_reporting" toDatetimeDate
      (rowApply "end_time" toDatetime
      (rowApply "start_time" toDatetime
        (columns_to_insert.map fun c => (c, g c))))))))))) =
      columns_to_insert.map fun c => (c, coerceFor c (g c)) := by
  simp only [rowApply_mapped]
  rfl

theorem selectCols_some (cs : List String) (df : DataFrame)
    (h : cs.all (fun c => df.cols.contains c) = true) :
    selectCols cs df =
      some ⟨cs, df.rows.map (fun r => cs.map fun c => (c, getCell r c))⟩ := by
  unfold selectCols
  rw [if_pos h]

theorem cleanData_some (df : DataFrame)
    (h : columns_to_insert.all (fun c => (renameDF df).cols.contains c) = true) :
    cleanData df = some ⟨columns_to_insert, df.rows.map cleanRow⟩ := by
  have hsel := selectCols_some columns_to_insert (renameDF df) h
  simp only [cleanData, hsel, Option.map_some', applyCol, List.map_map]
  refine congrArg some (congrArg (DataFrame.mk columns_to_insert) ?_)
  have hrows : (renameDF df).rows = df.rows.map renameRow := rfl
  rw [hrows, List.map_map]
  refine List.map_congr_left (fun r _ => ?_)
  simpa [Function.comp, cleanRow] using cleanChain_row (fun c => getCell (renameRow r) c)

theorem cleanData_none (df : DataFrame)
    (h : columns_to_insert.all (fun c => (renameDF df).cols.contains c) = false) :
    cleanData df = none := by
  have h' : ¬ columns_to_insert.all (fun c => (renameDF df).cols.contains c) = true := by
    rw [h]
    exact Bool.false_ne_true
  unfold cleanData selectCols
  rw [if_neg h']
  rfl

theorem cleanData_eq_some (df out : DataFrame) (h : cleanData df = some out) :
    out = ⟨columns_to_insert, df.rows.map cleanRow⟩ := by
  cases hall : columns_to_insert.all (fun c => (renameDF df).cols.contains c) with
  | true =>
    rw [cleanData_some df hall] at h
    exact ((Option.some.injEq _ _).mp h).symm
  | false =>
    rw [cleanData_none df hall] at h
    cases h

theorem getCell_mapped (g : String → Value) (cs : List String) (x : String)
    (hx : x ∈ cs) :
    getCell (cs.map fun c => (c, g c)) x = g x := by
  induction cs with
  | nil => cases hx
  | cons a t ih =>
    by_cases hax : x = a
    · subst hax
      simp [getCell, List.lookup_cons]
    · have hmem : x ∈ t := by
        rcases List.mem_cons.mp hx with h1 | h2
        · exact absurd h1 hax
        · exact h2
      simp only [List.map_cons, getCell, List.lookup_cons]
      rw [show (x == a) = false from beq_eq_false_iff_ne.mpr hax]
      simpa [getCell] using ih hmem

theorem keys_mapped (g : String → Value) (cs : List String) :
    (cs.map fun c => (c, g c)).map Prod.fst = cs := by
  induction cs with
  | nil => rfl
  | cons a t ih => simp [ih]

theorem getD_map_rows (f : Row → Row) (l : List Row) (i : Nat) (hi : i < l.length) :
    (l.map f).getD i [] = f (l.getD i []) := by
  rw [List.getD_eq_getElem?_getD, List.getD_eq_getElem?_getD, List.getElem?_map,
    List.getElem?_eq_getElem hi]
  rfl

theorem toDatetime_total (v : Value) : isTimestampOrNull (toDatetime v) = true := by
  cases v with
  | vStr s => cases hp : parseTimestampStr s <;> simp [toDatetime, hp, isTimestampOrNull]
  | vNull => rfl
  | vInt n => rfl
  | vTimestamp t => rfl
  | vDate d => rfl

theorem toDatetimeDate_total (v : Value) : isDateOrNull (toDatetimeDate v) = true := by
  cases h : toDatetime v <;> simp [toDatetimeDate, h, isDateOrNull]

theorem toNumeric_total (v : Value) : isIntOrNull (toNumeric v) = true := by
  cases v with
  | vStr s => cases hp : parseNumeric s <;> simp [toNumeric, hp, isIntOrNull]
  | vNull => rfl
  | vInt n => rfl
  | vTimestamp t => rfl
  | vDate d => rfl

theorem coerceFor_timestamp (c : String) (hc : c ∈ timestampColumns) (v : Value) :
    coerceFor c v = toDatetime v := by
  fin_cases hc <;> rfl

theorem coerceFor_date (v : Value) :
    coerceFor "date_of_reporting" v = toDatetimeDate v := rfl

theorem coerceFor_int (c : String) (hc : c ∈ integerColumns) (v : Value) :
    coerceFor c v = toNumeric v := by
  fin_cases hc <;> rfl

theorem coerceFor_text (c : String) (hc : c ∈ textColumns) (v : Value) :
    coerceFor c v = v := by
  fin_cases hc <;> rfl

theorem toDatetime_null : toDatetime Value.vNull = Value.vNull := rfl

theorem toDatetimeDate_null : toDatetimeDate Value.vNull = Value.vNull := rfl

theorem toNumeric_null : toNumeric Value.vNull = Value.vNull := rfl

theorem coerceFor_null (c : String) : coerceFor c Value.vNull = Value.vNull := by
  simp [coerceFor, toDatetime_null, toDatetimeDate_null, toNumeric_null]

/-! ## Claim C1 -/

/-- C1 (counterexample): the claim says a destination column missing from
the source becomes an absent-value placeholder rather than an error, for
every RawRecordSet.  False: on a RawRecordSet holding only an `Age`
column, the projection `df_clean[columns_to_insert]` raises `KeyError`
(modelled `none`) and no TypedRecord sequence is produced at all. -/
theorem mapping_missing_column_is_error : cleanData dfOnlyAge = none := by decide

/-- C1 (amended): when the mapping stage succeeds — which it does exactly
when every destination column is present after renaming — every output
row carries exactly the fixed 20-entry destination column list, in the
fixed order (so unmapped extra source columns are dropped), output rows
correspond one-to-one to source rows, and a destination column absent
from an individual source row becomes the absent-value placeholder.  A
destination column missing from the source's column set altogether
instead fails the stage with a `KeyError` that propagates. -/
theorem mapping_fixed_destination_columns (df out : DataFrame)
    (h : cleanData df = some out) :
    out.cols = columns_to_insert ∧
    out.rows.length = df.rows.length ∧
    (∀ r ∈ out.rows, r.map Prod.fst = columns_to_insert) ∧
    (∀ i, i < df.rows.length → ∀ c ∈ columns_to_insert,
      List.lookup c (renameRow (df.rows.getD i [])) = none →
      getCell (out.rows.getD i []) c = Value.vNull) := by
  have hout := cleanData_eq_some df out h
  subst hout
  refine ⟨rfl, by simp, ?_, ?_⟩
  · intro r hr
    rcases List.mem_map.mp hr with ⟨r0, _, rfl⟩
    simp only [cleanRow]
    exact keys_mapped _ _
  · intro i hi c hc hnone
    rw [getD_map_rows cleanRow df.rows i hi]
    simp only [cleanRow]
    rw [getCell_mapped (fun x => coerceFor x (getCell (renameRow (df.rows.getD i [])) x))
      columns_to_insert c hc]
    rw [show getCell (renameRow (df.rows.getD i [])) c = Value.vNull from by
      unfold getCell
      rw [hnone]
      rfl]
    exact coerceFor_null c

/-- C1 (witness): the amended theorem applied to the full one-row export. -/
theorem mapping_fixed_destination_columns_witness :
    cleanData exampleFullDF = some exampleFullOut ∧
    (exampleFullOut.cols = columns_to_insert ∧
     exampleFullOut.rows.length = exampleFullDF.rows.length ∧
     (∀ r ∈ exampleFullOut.rows, r.map Prod.fst = columns_to_insert) ∧
     (∀ i, i < exampleFullDF.rows.length → ∀ c ∈ columns_to_insert,
       List.lookup c (renameRow (exampleFullDF.rows.getD i [])) = none →
       getCell (exampleFullOut.rows.getD i []) c = Value.vNull)) :=
  ⟨by decide, mapping_fixed_destination_columns exampleFullDF exampleFullOut (by decide)⟩

/-! ## Claim C2 -/

/-- C2: type coercion in the mapping stage is total.  Each coercion
function maps every cell to a value of the declared semantic type or to
the absent-value (never an error — the functions are total by
construction, mirroring `errors=coerce`); in the mapped output every
timestamp column holds a timestamp or the absent-value, the date column
a calendar date or the absent-value, every integer column an integer or
the absent-value; and text columns pass through entirely unchanged. -/
theorem coercion_total_in_mapping (df out : DataFrame)
    (h : cleanData df = some out) :
    (∀ v, isTimestampOrNull (toDatetime v) = true) ∧
    (∀ v, isDateOrNull (toDatetimeDate v) = true) ∧
    (∀ v, isIntOrNull (toNumeric v) = true) ∧
    (∀ r ∈ out.rows,
      (∀ c ∈ timestampColumns, isTimestampOrNull (getCell r c) = true) ∧
      isDateOrNull (getCell r "date_of_reporting") = true ∧
      (∀ c ∈ integerColumns, isIntOrNull (getCell r c) = true)) ∧
    (∀ i, i < df.rows.length → ∀ c ∈ textColumns,
      getCell (out.rows.getD i []) c = getCell (renameRow (df.rows.getD i [])) c) := by
  have hout := cleanData_eq_some df out h
  subst hout
  refine ⟨toDatetime_total, toDatetimeDate_total, toNumeric_total, ?_, ?_⟩
  · intro r hr
    rcases List.mem_map.mp hr with ⟨r0, _, rfl⟩
    refine ⟨?_, ?_, ?_⟩
    · intro c hc
      have hmem : c ∈ columns_to_insert := by fin_cases hc <;> decide
      simp only [cleanRow]
      rw [getCell_mapped (fun x => coerceFor x (getCell (renameRow r0) x))
        columns_to_insert c hmem, coerceFor_timestamp c hc _]
      exact toDatetime_total _
    · simp only [cleanRow]
      rw [getCell_mapped (fun x => coerceFor x (getCell (renameRow r0) x))
        columns_to_insert "date_of_reporting" (by decide), coerceFor_date]
      exact toDatetimeDate_total _
    · intro c hc
      have hmem : c ∈ columns_to_insert := by fin_cases hc <;> decide
      simp only [cleanRow]
      rw [getCell_mapped (fun x => coerceFor x (getCell (renameRow r0) x))
        columns_to_insert c hmem, coerceFor_int c hc _]
      exact toNumeric_total _
  · intro i hi c hc
    have hmem : c ∈ columns_to_insert := by fin_cases hc <;> decide
    rw [getD_map_rows cleanRow df.rows i hi]
    simp only [cleanRow]
    rw [getCell_mapped (fun x => coerceFor x (getCell (renameRow (df.rows.getD i [])) x))
      columns_to_insert c hmem, coerceFor_text c hc _]

/-- C2 (witness): coercion totality applied to the full one-row export. -/
theorem coercion_total_in_mapping_witness :
    cleanData exampleFullDF = some exampleFullOut ∧
    ((∀ v, isTimestampOrNull (toDatetime v) = true) ∧
     (∀ v, isDateOrNull (toDatetimeDate v) = true) ∧
     (∀ v, isIntOrNull (toNumeric v) = true) ∧
     (∀ r ∈ exampleFullOut.rows,
       (∀ c ∈ timestampColumns, isTimestampOrNull (getCell r c) = true) ∧
       isDateOrNull (getCell r "date_of_reporting") = true ∧
       (∀ c ∈ integerColumns, isIntOrNull (getCell r c) = true)) ∧
     (∀ i, i < exampleFullDF.rows.length → ∀ c ∈ textColumns,
       getCell (exampleFullOut.rows.getD i []) c =
         getCell (renameRow (exampleFullDF.rows.getD i [])) c)) :=
  ⟨by decide, coercion_total_in_mapping exampleFullDF exampleFullOut (by decide)⟩

/-! ## Claim C3 -/

/-- C3: full-replace idempotence.  Against an unchanged remote source
(the same environment), a successful run drops and recreates the table
and then loads exactly the fetched rows, so after the first run and
again after a second run the destination row count equals the source
row count — it never grows across runs, and no row survives a run. -/
theorem full_replace_idempotent (env : Env) (s0 : DBState) (df : DataFrame)
    (hf : fetch_kobo_data env.http = some df) (hne : df.rows.isEmpty = false)
    (hc : env.connectOk = true) (hd : env.ddlOk = true) (hl : env.insertOk = true)
    (hm : (cleanData df).isSome = true) :
    ∃ s1 s2 st1 st2,
      main env s0 = RunResult.completed s1 st1 ∧ rowCount s1 = df.rows.length ∧
      main env s1 = RunResult.completed s2 st2 ∧ rowCount s2 = df.rows.length := by
  rcases Option.isSome_iff_exists.mp hm with ⟨out, hout⟩
  have hlen : out.rows.length = df.rows.length := by
    rw [cleanData_eq_some df out hout]
    simp
  have hmain : ∀ s : DBState, main env s =
      RunResult.completed ⟨true, some ⟨customer_feedback_schema, out.rows⟩⟩
        [Stage.fetching, Stage.connecting, Stage.provisioning, Stage.loading,
         Stage.verifying, Stage.done] := fun s => by
    simp only [main, hf, hne, hc, hd, hl, create_database_connection,
      create_schema_and_table, clean_and_insert_data, hout, if_true,
      Bool.false_eq_true, if_false, List.nil_append]
  exact ⟨_, _, _, _, hmain s0, by simpa [rowCount] using hlen, hmain _,
    by simpa [rowCount] using hlen⟩

/-- C3 (witness): two successful runs over a concrete one-row export. -/
theorem full_replace_idempotent_witness :
    fetch_kobo_data successEnv.http = some fetchedDF ∧
    ∃ s1 s2 st1 st2,
      main successEnv emptyDB = RunResult.completed s1 st1 ∧
      rowCount s1 = fetchedDF.rows.length ∧
      main successEnv s1 = RunResult.completed s2 st2 ∧
      rowCount s2 = fetchedDF.rows.length :=
  ⟨by decide, full_replace_idempotent successEnv emptyDB fetchedDF (by decide) (by decide)
    rfl rfl rfl (by decide)⟩

/-! ## Claim C4 -/

/-- C4: when the fetch fails, yields zero rows, or the destination
connection fails, the run terminates normally before the Provisioning
stage: the final destination state is exactly the initial one (no drop,
create, or insert is issued), and neither Provisioning, Loading nor Done
is ever entered. -/
theorem short_circuit_before_provisioning (env : Env) (s0 : DBState)
    (h : fetch_kobo_data env.http = none ∨
      (∃ df, fetch_kobo_data env.http = some df ∧ df.rows.isEmpty = true) ∨
      env.connectOk = false) :
    ∃ st, main env s0 = RunResult.abortedNormally s0 st ∧
      Stage.provisioning ∉ st ∧ Stage.loading ∉ st ∧ Stage.done ∉ st := by
  rcases h with hf | ⟨df, hf, hemp⟩ | hcon
  · exact ⟨[Stage.fetching], by simp [main, hf], by decide, by decide, by decide⟩
  · exact ⟨[Stage.fetching], by simp [main, hf, hemp], by decide, by decide, by decide⟩
  · cases hfetch : fetch_kobo_data env.http with
    | none =>
      exact ⟨[Stage.fetching], by simp [main, hfetch], by decide, by decide, by decide⟩
    | some df =>
      cases hemp : df.rows.isEmpty with
      | true =>
        exact ⟨[Stage.fetching], by simp [main, hfetch, hemp], by decide, by decide,
          by decide⟩
      | false =>
        refine ⟨[Stage.fetching, Stage.connecting], ?_, by decide, by decide, by decide⟩
        simp [main, hfetch, hemp, hcon, create_database_connection]

/-- C4 (witness): an unreachable endpoint leaves the destination as it
was and never reaches Provisioning. -/
theorem short_circuit_before_provisioning_witness :
    ∃ st, main unreachableEnv emptyDB = RunResult.abortedNormally emptyDB st ∧
      Stage.provisioning ∉ st ∧ Stage.loading ∉ st ∧ Stage.done ∉ st :=
  short_circuit_before_provisioning unreachableEnv emptyDB (Or.inl (by decide))

/-! ## Claim C5 -/

/-- C5 (counterexample): the claim says a response that parses to zero
rows is a fetch failure.  False: a 200 response whose body is a lone
header line is returned as a successful, zero-row RawRecordSet. -/
theorem zero_row_fetch_is_success :
    fetch_kobo_data headerOnlyResponse = some ⟨["col1", "col2"], []⟩ ∧
    ((fetch_kobo_data headerOnlyResponse).getD ⟨[], []⟩).rows.length = 0 := by decide

/-- C5 (amended): the Fetcher returns `None` exactly on a network
failure, an HTTP error status (4xx/5xx — what `raise_for_status`
raises on), or a body that cannot be parsed at all (no lines); any
parsable body — including one with zero data rows — is returned as a
RawRecordSet.  The zero-row abort is enforced by the orchestrator, not
the Fetcher. -/
theorem fetcher_error_conditions (r : HttpResult) :
    (fetch_kobo_data r = none ↔
      r.reachable = false ∨ (400 ≤ r.status ∧ r.status < 600) ∨ read_csv r.body = none) ∧
    (∀ df, read_csv r.body = some df → r.reachable = true →
      ¬ (400 ≤ r.status ∧ r.status < 600) → fetch_kobo_data r = some df) := by
  constructor
  · constructor
    · intro h
      cases hr : r.reachable with
      | false => exact Or.inl rfl
      | true =>
        by_cases hs : 400 ≤ r.status ∧ r.status < 600
        · exact Or.inr (Or.inl hs)
        · refine Or.inr (Or.inr ?_)
          simpa [fetch_kobo_data, hr, hs] using h
    · intro h
      rcases h with h | h | h
      · simp [fetch_kobo_data, h]
      · cases hr : r.reachable <;> simp [fetch_kobo_data, hr, h]
      · cases hr : r.reachable <;> by_cases hs : 400 ≤ r.status ∧ r.status < 600 <;>
          simp [fetch_kobo_data, hr, hs, h]
  · intro df hdf hr hs
    simp [fetch_kobo_data, hr, hs, hdf]

/-- C5 (witness): a header-only 200 response fetches successfully; an
unreachable endpoint fetches as `None`. -/
theorem fetcher_error_conditions_witness :
    fetch_kobo_data headerOnlyResponse = some ⟨["col1", "col2"], []⟩ ∧
    fetch_kobo_data unreachableResponse = none :=
  ⟨(fetcher_error_conditions headerOnlyResponse).2 ⟨["col1", "col2"], []⟩ (by decide)
      (by decide) (by decide),
   (fetcher_error_conditions unreachableResponse).1.mpr (Or.inl (by decide))⟩

/-! ## Claim C6 -/

/-- C6 (counterexample): the claim's source row, delivered as its own
RawRecordSet (only `Age`, `Gender`, `_id`, `start` columns), does not
map to a TypedRecord at all: the projection raises `KeyError` because
sixteen destination columns are missing. -/
theorem example_row_alone_is_error : cleanData exampleRowDF = none := by decide

/-- C6 (amended): when the example row arrives inside the full export
(all twenty source columns present, the unsupplied cells blank), it
maps to a TypedRecord with `age = 34` (integer), `gender = "Female"`
(text), `submission_id = 991`, `start_time` parsed as a zoned (UTC)
timestamp, and every other destination column the absent-value. -/
theorem example_row_full_export_mapping :
    cleanData exampleFullDF = some exampleFullOut ∧
    exampleFullOut.rows.length = 1 ∧
    getCell (exampleFullOut.rows.getD 0 []) "age" = Value.vInt 34 ∧
    getCell (exampleFullOut.rows.getD 0 []) "gender" = Value.vStr "Female" ∧
    getCell (exampleFullOut.rows.getD 0 []) "submission_id" = Value.vInt 991 ∧
    getCell (exampleFullOut.rows.getD 0 []) "start_time" =
      Value.vTimestamp ⟨2024, 1, 3, 10, 0, 0, some 0⟩ ∧
    (∀ c ∈ columns_to_insert, c ≠ "age" → c ≠ "gender" → c ≠ "submission_id" →
      c ≠ "start_time" → getCell (exampleFullOut.rows.getD 0 []) c = Value.vNull) := by
  decide

/-! ## Claim C7 -/

/-- C7: a source row whose age value is unparsable as an integer maps
with `age` set to the absent-value, without raising; the row remains
present (row counts agree, position preserved), and every other
destination cell of that row is exactly the coercion of its own source
cell — untouched by the failed age coercion. -/
theorem malformed_age_coerced_to_null (df out : DataFrame)
    (h : cleanData df = some out) (i : Nat) (hi : i < df.rows.length) (s : String)
    (hage : getCell (renameRow (df.rows.getD i [])) "age" = Value.vStr s)
    (hbad : parseNumeric s = none) :
    out.rows.length = df.rows.length ∧
    getCell (out.rows.getD i []) "age" = Value.vNull ∧
    (∀ c ∈ columns_to_insert, c ≠ "age" →
      getCell (out.rows.getD i []) c =
        coerceFor c (getCell (renameRow (df.rows.getD i [])) c)) := by
  have hout := cleanData_eq_some df out h
  subst hout
  refine ⟨by simp, ?_, ?_⟩
  · rw [getD_map_rows cleanRow df.rows i hi]
    simp only [cleanRow]
    rw [getCell_mapped (fun x => coerceFor x (getCell (renameRow (df.rows.getD i [])) x))
      columns_to_insert "age" (by decide)]
    rw [hage, coerceFor_int "age" (by decide) _]
    simp [toNumeric, hbad]
  · intro c hc _
    rw [getD_map_rows cleanRow df.rows i hi]
    simp only [cleanRow]
    rw [getCell_mapped (fun x => coerceFor x (getCell (renameRow (df.rows.getD i [])) x))
      columns_to_insert c hc]

/-- C7 (witness): the `"thirty"` export row maps with a null age, is
kept, and all its other cells are their own coercions. -/
theorem malformed_age_coerced_to_null_witness :
    cleanData exampleThirtyDF = some exampleThirtyOut ∧ parseNumeric "thirty" = none ∧
    (exampleThirtyOut.rows.length = exampleThirtyDF.rows.length ∧
     getCell (exampleThirtyOut.rows.getD 0 []) "age" = Value.vNull ∧
     (∀ c ∈ columns_to_insert, c ≠ "age" →
       getCell (exampleThirtyOut.rows.getD 0 []) c =
         coerceFor c (getCell (renameRow (exampleThirtyDF.rows.getD 0 [])) c))) :=
  ⟨by decide, by decide,
   malformed_age_coerced_to_null exampleThirtyDF exampleThirtyOut (by decide) 0
     (by decide) "thirty" (by decide) (by decide)⟩

/-! ## Claim C8 -/

/-- C8 (counterexample): the claim's tally of the fixed schema is
wrong: the `CREATE TABLE` statement declares 22 columns, not 21; five
integer columns, not four; and nine free-text/string fields besides the
`uuid` string identifier, not eight. -/
theorem schema_has_22_columns :
    customer_feedback_schema.length = 22 ∧ customer_feedback_schema.length ≠ 21 ∧
    (customer_feedback_schema.filter (fun p => p.2 == SqlType.integerT)).length = 5 ∧
    (customer_feedback_schema.filter
      (fun p => isStringType p.2 && !(p.1 == "uuid"))).length = 9 := by decide

/-- C8 (amended): the Provisioner unconditionally discards any prior
destination table — whatever it held — and recreates it empty with the
fixed 22-column schema: an identity primary key, two zoned timestamps,
one date, a bigint identifier, a varchar string identifier (`uuid`),
five integers, ten varchar/text fields in total (nine besides `uuid`),
one plain timestamp (`submission_time`), and one server-default
insertion timestamp (`created_at`). -/
theorem provisioner_drops_and_recreates (prior : DBState) :
    create_schema_and_table true prior =
      Except.ok ⟨true, some ⟨customer_feedback_schema, []⟩⟩ ∧
    customer_feedback_schema.length = 22 ∧
    (customer_feedback_schema.filter (fun p => p.2 == SqlType.serialPK)).length = 1 ∧
    (customer_feedback_schema.filter (fun p => p.2 == SqlType.timestampTZ)).length = 2 ∧
    (customer_feedback_schema.filter (fun p => p.2 == SqlType.dateT)).length = 1 ∧
    (customer_feedback_schema.filter (fun p => p.2 == SqlType.bigintT)).length = 1 ∧
    List.lookup "uuid" customer_feedback_schema = some (SqlType.varcharT 255) ∧
    (customer_feedback_schema.filter (fun p => p.2 == SqlType.integerT)).length = 5 ∧
    (customer_feedback_schema.filter (fun p => isStringType p.2)).length = 10 ∧
    (customer_feedback_schema.filter (fun p => p.2 == SqlType.timestampPlain)).length = 1 ∧
    (customer_feedback_schema.filter
      (fun p => p.2 == SqlType.timestampDefaultNow)).length = 1 :=
  ⟨rfl, by decide⟩

/-- C8 (witness): provisioning over an empty destination produces the
fresh empty table with the fixed schema. -/
theorem provisioner_drops_and_recreates_witness :
    create_schema_and_table true emptyDB =
      Except.ok ⟨true, some ⟨customer_feedback_schema, []⟩⟩ :=
  (provisioner_drops_and_recreates emptyDB).1

/-! ## Claim C9 -/

/-- C9: any failure during provisioning or during the load (DDL
failure, projection `KeyError`, or insert failure) propagates as a
raised fatal error, and the run never enters the Verifying (or Done)
stage — the count query and sample select are never reached. -/
theorem fatal_error_before_verification (env : Env) (s0 : DBState) (df : DataFrame)
    (hf : fetch_kobo_data env.http = some df) (hne : df.rows.isEmpty = false)
    (hc : env.connectOk = true)
    (hfail : env.ddlOk = false ∨ cleanData df = none ∨ env.insertOk = false) :
    ∃ e s st, main env s0 = RunResult.raised e s st ∧
      Stage.verifying ∉ st ∧ Stage.done ∉ st := by
  cases hd : env.ddlOk with
  | false =>
    refine ⟨PipelineError.provisionError, s0,
      [Stage.fetching, Stage.connecting, Stage.provisioning], ?_, by decide, by decide⟩
    simp [main, hf, hne, hc, hd, create_database_connection, create_schema_and_table]
  | true =>
    cases hm : cleanData df with
    | none =>
      refine ⟨PipelineError.keyError, ⟨true, some ⟨customer_feedback_schema, []⟩⟩,
        [Stage.fetching, Stage.connecting, Stage.provisioning, Stage.loading], ?_,
        by decide, by decide⟩
      simp [main, hf, hne, hc, hd, hm, create_database_connection,
        create_schema_and_table, clean_and_insert_data]
    | some out =>
      cases hl : env.insertOk with
      | false =>
        refine ⟨PipelineError.loadError, ⟨true, some ⟨customer_feedback_schema, []⟩⟩,
          [Stage.fetching, Stage.connecting, Stage.provisioning, Stage.loading], ?_,
          by decide, by decide⟩
        simp [main, hf, hne, hc, hd, hm, hl, create_database_connection,
          create_schema_and_table, clean_and_insert_data]
      | true =>
        rcases hfail with hfail | hfail | hfail
        · rw [hd] at hfail
          cases hfail
        · rw [hm] at hfail
          cases hfail
        · rw [hl] at hfail
          cases hfail

/-- C9 (witness): a failing DDL raises before Verifying. -/
theorem fatal_error_before_verification_witness :
    ∃ e s st, main noDdlEnv emptyDB = RunResult.raised e s st ∧
      Stage.verifying ∉ st ∧ Stage.done ∉ st :=
  fatal_error_before_verification noDdlEnv emptyDB
    ⟨["Age"], [[("Age", Value.vStr "34")]]⟩ (by decide) (by decide) rfl (Or.inl rfl)

/-! ## Claim C10 -/

/-- C10: the fetch and connection stages never propagate an exception:
every fetch-side failure (unreachable network, HTTP error status,
unparsable body) makes `fetch_kobo_data` return `None` rather than
raise, and a run aborted at Fetching or Connecting terminates normally
(an early `return`), never as a raised error. -/
theorem fetch_connect_never_propagate (env : Env) (s0 : DBState) :
    (env.http.reachable = false → fetch_kobo_data env.http = none) ∧
    (400 ≤ env.http.status → env.http.status < 600 → fetch_kobo_data env.http = none) ∧
    (read_csv env.http.body = none → fetch_kobo_data env.http = none) ∧
    ((fetch_kobo_data env.http = none ∨ env.connectOk = false) →
      ∃ st, main env s0 = RunResult.abortedNormally s0 st) := by
  refine ⟨?_, ?_, ?_, ?_⟩
  · intro h
    simp [fetch_kobo_data, h]
  · intro h1 h2
    cases hr : env.http.reachable <;> simp [fetch_kobo_data, hr, h1, h2]
  · intro h
    cases hr : env.http.reachable <;>
      by_cases hs : 400 ≤ env.http.status ∧ env.http.status < 600 <;>
        simp [fetch_kobo_data, hr, hs, h]
  · intro h
    rcases h with hf | hcon
    · exact ⟨[Stage.fetching], by simp [main, hf]⟩
    · cases hfetch : fetch_kobo_data env.http with
      | none => exact ⟨[Stage.fetching], by simp [main, hfetch]⟩
      | some df =>
        cases hemp : df.rows.isEmpty with
        | true => exact ⟨[Stage.fetching], by simp [main, hfetch, hemp]⟩
        | false =>
          exact ⟨[Stage.fetching, Stage.connecting],
            by simp [main, hfetch, hemp, hcon, create_database_connection]⟩

/-- C10 (witness): an unreachable endpoint returns `None` from the
fetcher and the run ends normally. -/
theorem fetch_connect_never_propagate_witness :
    fetch_kobo_data unreachableEnv.http = none ∧
    ∃ st, main unreachableEnv emptyDB = RunResult.abortedNormally emptyDB st :=
  ⟨(fetch_connect_never_propagate unreachableEnv emptyDB).1 rfl,
   (fetch_connect_never_propagate unreachableEnv emptyDB).2.2.2
     (Or.inl ((fetch_connect_never_propagate unreachableEnv emptyDB).1 rfl))⟩

end FeedbackAnalysis
